import Mathlib

/-!
Verification of the rpi_odor experiment-execution engine (enose-control).

This file shallowly embeds the state-machine core of the repository:
the L0 peripheral state table (`workflows/system_state.cpp`), the L1
hardware state machine (`workflows/hardware_state_machine.cpp`), the
RAII state transaction guard (`workflows/transaction_guard.hpp`), the
primitive executors (inject / drain / acquire / wash), the load-cell
`wait_for_empty_bottle` feedback loop (`hal/load_cell_driver.cpp`) and
the orchestrator lifecycle operations
(`grpc/experiment_service_impl.cpp`).

Machine floats are modelled as rationals, liquid / event identifiers as
naturals, and the polling loops as one model step per poll tick (the
source sleeps a fixed interval between iterations, so elapsed wall time
at iteration n is n times the poll period).
-/

/-- L0 coarse system mode (`SystemState::State`). -/
inductive L0State
  | INITIAL
  | DRAIN
  | CLEAN
  | SAMPLE
  | INJECT
deriving DecidableEq, Repr

/-- Stepper pump run state (`workflows::PumpState`). -/
inductive PumpState
  | STOPPED
  | RUNNING
deriving DecidableEq, Repr

/-- Peripheral set-point vector (`workflows::PeripheralState`), with the
fields in the declaration order of the source header; the eight stepper
pumps follow the implementation file (`system_state.cpp`). -/
structure PeripheralState where
  valve_waste : ℚ
  valve_pinch : ℚ
  valve_air : ℚ
  valve_outlet : ℚ
  air_pump_pwm : ℚ
  cleaning_pump : ℚ
  pump_0 : PumpState
  pump_1 : PumpState
  pump_2 : PumpState
  pump_3 : PumpState
  pump_4 : PumpState
  pump_5 : PumpState
  pump_6 : PumpState
  pump_7 : PumpState
  heater_chamber : ℚ
deriving DecidableEq, Repr

/-- Named actuator output pins used by `apply_peripheral_state`. -/
inductive Pin
  | valve_waste
  | valve_pinch
  | valve_air
  | valve_outlet
  | air_pump_pwm
  | cleaning_pump
  | inject_fan
  | inject_fan_2
  | heater_chamber
deriving DecidableEq, Repr

/-- Actuator command stream elements (the G-code scripts sent through
`ActuatorDriver::send_gcode`). -/
inductive Cmd
  | setPin (pin : Pin) (value : ℚ)
  | manualStepperStop (pumpIdx : Fin 8)
  | asyncStop
  | registerPumpsToAxis
  | g1Move (a b c d h i j k feedrate : ℚ)
deriving DecidableEq, Repr

/-- The compile-time mode table `SystemState::STATE_DEFINITIONS`. -/
def STATE_DEFINITIONS : L0State → PeripheralState
  | L0State.INITIAL =>
    { valve_waste := 0, valve_pinch := 0, valve_air := 0, valve_outlet := 0
      air_pump_pwm := 0, cleaning_pump := 0
      pump_0 := PumpState.STOPPED, pump_1 := PumpState.STOPPED
      pump_2 := PumpState.STOPPED, pump_3 := PumpState.STOPPED
      pump_4 := PumpState.STOPPED, pump_5 := PumpState.STOPPED
      pump_6 := PumpState.STOPPED, pump_7 := PumpState.STOPPED
      heater_chamber := 0 }
  | L0State.DRAIN =>
    { valve_waste := 1, valve_pinch := 0, valve_air := 0, valve_outlet := 1
      air_pump_pwm := 1, cleaning_pump := 0
      pump_0 := PumpState.STOPPED, pump_1 := PumpState.STOPPED
      pump_2 := PumpState.STOPPED, pump_3 := PumpState.STOPPED
      pump_4 := PumpState.STOPPED, pump_5 := PumpState.STOPPED
      pump_6 := PumpState.STOPPED, pump_7 := PumpState.STOPPED
      heater_chamber := 0 }
  | L0State.CLEAN =>
    { valve_waste := 0, valve_pinch := 1, valve_air := 0, valve_outlet := 0
      air_pump_pwm := 0, cleaning_pump := 1
      pump_0 := PumpState.STOPPED, pump_1 := PumpState.STOPPED
      pump_2 := PumpState.STOPPED, pump_3 := PumpState.STOPPED
      pump_4 := PumpState.STOPPED, pump_5 := PumpState.STOPPED
      pump_6 := PumpState.STOPPED, pump_7 := PumpState.STOPPED
      heater_chamber := 0 }
  | L0State.SAMPLE =>
    { valve_waste := 0, valve_pinch := 0, valve_air := 1, valve_outlet := 0
      air_pump_pwm := 1, cleaning_pump := 0
      pump_0 := PumpState.STOPPED, pump_1 := PumpState.STOPPED
      pump_2 := PumpState.STOPPED, pump_3 := PumpState.STOPPED
      pump_4 := PumpState.STOPPED, pump_5 := PumpState.STOPPED
      pump_6 := PumpState.STOPPED, pump_7 := PumpState.STOPPED
      heater_chamber := 0 }
  | L0State.INJECT =>
    { valve_waste := 0, valve_pinch := 1, valve_air := 0, valve_outlet := 0
      air_pump_pwm := 0, cleaning_pump := 0
      pump_0 := PumpState.STOPPED, pump_1 := PumpState.STOPPED
      pump_2 := PumpState.STOPPED, pump_3 := PumpState.STOPPED
      pump_4 := PumpState.STOPPED, pump_5 := PumpState.STOPPED
      pump_6 := PumpState.STOPPED, pump_7 := PumpState.STOPPED
      heater_chamber := 0 }

/-- Model of `SystemState::is_any_pump_running`. -/
def isAnyPumpRunning (p : PeripheralState) : Bool :=
  p.pump_0 = PumpState.RUNNING || p.pump_1 = PumpState.RUNNING ||
  p.pump_2 = PumpState.RUNNING || p.pump_3 = PumpState.RUNNING ||
  p.pump_4 = PumpState.RUNNING || p.pump_5 = PumpState.RUNNING ||
  p.pump_6 = PumpState.RUNNING || p.pump_7 = PumpState.RUNNING

/-- Marking every stepper pump STOPPED (the auto-stop bookkeeping in
`SystemState::transition_to`). -/
def stopAllPumps (p : PeripheralState) : PeripheralState :=
  { p with
    pump_0 := PumpState.STOPPED, pump_1 := PumpState.STOPPED
    pump_2 := PumpState.STOPPED, pump_3 := PumpState.STOPPED
    pump_4 := PumpState.STOPPED, pump_5 := PumpState.STOPPED
    pump_6 := PumpState.STOPPED, pump_7 := PumpState.STOPPED }

/-- The cleaning-pump soft-start ramp: ten equal SET_PIN steps from the
starting value to the target value (`apply_peripheral_state`). -/
def rampCmds (startVal endVal : ℚ) : List Cmd :=
  (List.range 10).map
    (fun i => Cmd.setPin Pin.cleaning_pump (startVal + (endVal - startVal) / 10 * (i + 1)))

/-- Per-pump read access by index (pump field i of the vector). -/
def pumpField (p : PeripheralState) : Fin 8 → PumpState
  | 0 => p.pump_0
  | 1 => p.pump_1
  | 2 => p.pump_2
  | 3 => p.pump_3
  | 4 => p.pump_4
  | 5 => p.pump_5
  | 6 => p.pump_6
  | 7 => p.pump_7

/-- One stepper-pump stop emission of `apply_peripheral_state`: a
MANUAL_STEPPER ENABLE=0 command exactly when the target state is STOPPED
while the previous state was RUNNING. -/
def emitPumpStop (i : Fin 8) (cur tgt : PeripheralState) : List Cmd :=
  if pumpField tgt i = PumpState.STOPPED ∧ pumpField cur i = PumpState.RUNNING then
    [Cmd.manualStepperStop i]
  else []

/-- The command sequence emitted by `SystemState::apply_peripheral_state`
for a change from vector `cur` to vector `tgt`, in the source's emission
order: valve_outlet, valve_pinch (with the two coupled inject fans),
valve_waste, valve_air, air_pump_pwm, cleaning_pump (soft-start ramp on a
rise, single command on a stop), then the eight stepper-pump stops. The
heater_chamber emission is commented out in the source and emits nothing. -/
def applyPeripheralStateCmds (cur tgt : PeripheralState) : List Cmd :=
  (if tgt.valve_outlet ≠ cur.valve_outlet then
    [Cmd.setPin Pin.valve_outlet tgt.valve_outlet] else []) ++
  ((if tgt.valve_pinch ≠ cur.valve_pinch then
    [Cmd.setPin Pin.valve_pinch tgt.valve_pinch,
     Cmd.setPin Pin.inject_fan tgt.valve_pinch,
     Cmd.setPin Pin.inject_fan_2 tgt.valve_pinch] else []) ++
  ((if tgt.valve_waste ≠ cur.valve_waste then
    [Cmd.setPin Pin.valve_waste tgt.valve_waste] else []) ++
  ((if tgt.valve_air ≠ cur.valve_air then
    [Cmd.setPin Pin.valve_air tgt.valve_air] else []) ++
  ((if tgt.air_pump_pwm ≠ cur.air_pump_pwm then
    [Cmd.setPin Pin.air_pump_pwm tgt.air_pump_pwm] else []) ++
  ((if tgt.cleaning_pump ≠ cur.cleaning_pump then
    (if cur.cleaning_pump < tgt.cleaning_pump then
      rampCmds cur.cleaning_pump tgt.cleaning_pump
     else [Cmd.setPin Pin.cleaning_pump tgt.cleaning_pump]) else []) ++
  (emitPumpStop 0 cur tgt ++
  (emitPumpStop 1 cur tgt ++
  (emitPumpStop 2 cur tgt ++
  (emitPumpStop 3 cur tgt ++
  (emitPumpStop 4 cur tgt ++
  (emitPumpStop 5 cur tgt ++
  (emitPumpStop 6 cur tgt ++
  emitPumpStop 7 cur tgt))))))))))))

/-- The mutable part of `workflows::SystemState`: current mode and the
current peripheral vector. -/
structure SystemStateM where
  mode : L0State
  periph : PeripheralState
deriving DecidableEq, Repr

/-- The freshly constructed `SystemState`: INITIAL mode with the INITIAL
table vector. -/
def initialSystemState : SystemStateM :=
  { mode := L0State.INITIAL, periph := STATE_DEFINITIONS L0State.INITIAL }

/-- Model of `SystemState::transition_to(target)`: no-op when already in the target
mode; otherwise auto-stop any running stepper pump (one ENOSE_ASYNC_STOP
preceding everything else, pumps marked STOPPED), switch the mode, emit the
diff commands of `apply_peripheral_state`, and adopt the target table
vector. Returns the new machine state and the emitted command list. -/
def transitionTo (s : SystemStateM) (target : L0State) : SystemStateM × List Cmd :=
  if s.mode = target then (s, [])
  else
    let pre : PeripheralState × List Cmd :=
      if isAnyPumpRunning s.periph then (stopAllPumps s.periph, [Cmd.asyncStop])
      else (s.periph, [])
    let tgtVec := STATE_DEFINITIONS target
    ({ mode := target, periph := tgtVec },
     pre.2 ++ applyPeripheralStateCmds pre.1 tgtVec)

theorem transitionTo_mode (s : SystemStateM) (t : L0State) :
    (transitionTo s t).1.mode = t := by
  unfold transitionTo
  by_cases h : s.mode = t <;> simp [h]

theorem transitionTo_self (s : SystemStateM) : transitionTo s s.mode = (s, []) := by
  unfold transitionTo
  simp

/-- L1 phase state (`workflows::HardwareState`). -/
inductive HardwareState
  | IDLE
  | INJECT_PREPARING
  | INJECT_RUNNING
  | INJECT_STABILIZING
  | DRAIN_PREPARING
  | DRAIN_RUNNING
  | CLEAN_PREPARING
  | CLEAN_FILLING
  | CLEAN_DRAINING
  | SAMPLE_PREPARING
  | SAMPLE_ACQUIRING
  | ERROR
  | EMERGENCY_STOP
deriving DecidableEq, Repr

/-- The static legal-successor table built by
`HardwareStateMachine::initialize_transition_rules`. -/
def validTransitions : HardwareState → List HardwareState
  | HardwareState.IDLE =>
    [HardwareState.INJECT_PREPARING, HardwareState.DRAIN_PREPARING,
     HardwareState.CLEAN_PREPARING, HardwareState.SAMPLE_PREPARING,
     HardwareState.ERROR, HardwareState.EMERGENCY_STOP]
  | HardwareState.INJECT_PREPARING =>
    [HardwareState.INJECT_RUNNING, HardwareState.IDLE,
     HardwareState.ERROR, HardwareState.EMERGENCY_STOP]
  | HardwareState.INJECT_RUNNING =>
    [HardwareState.INJECT_STABILIZING, HardwareState.IDLE,
     HardwareState.ERROR, HardwareState.EMERGENCY_STOP]
  | HardwareState.INJECT_STABILIZING =>
    [HardwareState.IDLE, HardwareState.ERROR, HardwareState.EMERGENCY_STOP]
  | HardwareState.DRAIN_PREPARING =>
    [HardwareState.DRAIN_RUNNING, HardwareState.IDLE,
     HardwareState.ERROR, HardwareState.EMERGENCY_STOP]
  | HardwareState.DRAIN_RUNNING =>
    [HardwareState.IDLE, HardwareState.ERROR, HardwareState.EMERGENCY_STOP]
  | HardwareState.CLEAN_PREPARING =>
    [HardwareState.CLEAN_FILLING, HardwareState.IDLE,
     HardwareState.ERROR, HardwareState.EMERGENCY_STOP]
  | HardwareState.CLEAN_FILLING =>
    [HardwareState.CLEAN_DRAINING, HardwareState.IDLE,
     HardwareState.ERROR, HardwareState.EMERGENCY_STOP]
  | HardwareState.CLEAN_DRAINING =>
    [HardwareState.CLEAN_FILLING, HardwareState.IDLE,
     HardwareState.ERROR, HardwareState.EMERGENCY_STOP]
  | HardwareState.SAMPLE_PREPARING =>
    [HardwareState.SAMPLE_ACQUIRING, HardwareState.IDLE,
     HardwareState.ERROR, HardwareState.EMERGENCY_STOP]
  | HardwareState.SAMPLE_ACQUIRING =>
    [HardwareState.IDLE, HardwareState.ERROR, HardwareState.EMERGENCY_STOP]
  | HardwareState.ERROR => [HardwareState.IDLE]
  | HardwareState.EMERGENCY_STOP => [HardwareState.IDLE]

/-- Model of `HardwareStateMachine::to_legacy_state`: the total projection from L1
phase states down to L0 modes. -/
def toLegacyState : HardwareState → L0State
  | HardwareState.IDLE => L0State.INITIAL
  | HardwareState.ERROR => L0State.INITIAL
  | HardwareState.EMERGENCY_STOP => L0State.INITIAL
  | HardwareState.INJECT_PREPARING => L0State.INJECT
  | HardwareState.INJECT_RUNNING => L0State.INJECT
  | HardwareState.INJECT_STABILIZING => L0State.INJECT
  | HardwareState.DRAIN_PREPARING => L0State.DRAIN
  | HardwareState.DRAIN_RUNNING => L0State.DRAIN
  | HardwareState.CLEAN_PREPARING => L0State.CLEAN
  | HardwareState.CLEAN_FILLING => L0State.CLEAN
  | HardwareState.CLEAN_DRAINING => L0State.CLEAN
  | HardwareState.SAMPLE_PREPARING => L0State.SAMPLE
  | HardwareState.SAMPLE_ACQUIRING => L0State.SAMPLE

/-- Model of `HardwareStateMachine::from_legacy_state`: the representative L1 state
for an externally observed L0 mode. -/
def fromLegacyState : L0State → HardwareState
  | L0State.INITIAL => HardwareState.IDLE
  | L0State.INJECT => HardwareState.INJECT_RUNNING
  | L0State.DRAIN => HardwareState.DRAIN_RUNNING
  | L0State.CLEAN => HardwareState.CLEAN_FILLING
  | L0State.SAMPLE => HardwareState.SAMPLE_ACQUIRING

/-- Model of `HardwareStateMachine::on_legacy_state_changed`, reduced to its effect
on the L1 current state: when the current L1 state already projects to the
new L0 mode the update is suppressed (cycle-break); otherwise the current
state is overwritten with the representative state of the new mode. -/
def onLegacyStateChanged (cur : HardwareState) (newL0 : L0State) : HardwareState :=
  if toLegacyState cur = newL0 then cur else fromLegacyState newL0

/-- The bidirectionally linked pair of state machines: the L1 machine plus
the L0 machine it owns as `legacy_state_`. -/
structure HSM where
  l1 : HardwareState
  l0 : SystemStateM
deriving DecidableEq, Repr

/-- Result of an L1 transition request (`workflows::TransitionResult`),
reduced to the success flag and the resulting state. -/
structure TransitionResult where
  success : Bool
  current_state : HardwareState
deriving DecidableEq, Repr

/-- An L0 transition performed from inside the L1 machine
(`apply_legacy_state` followed by the L0 change callback): the L0 machine
transitions, and if its mode actually changed the observer callback runs
`on_legacy_state_changed` against the already-updated L1 state. -/
def applyLegacyState (l1 : HardwareState) (l0 : SystemStateM) (target : HardwareState) :
    HardwareState × SystemStateM × List Cmd :=
  let legacy := toLegacyState target
  let changed := l0.mode ≠ legacy
  let r := transitionTo l0 legacy
  (if changed then onLegacyStateChanged l1 legacy else l1, r.1, r.2)

/-- Model of `HardwareStateMachine::request_transition`: a self-transition returns
success immediately without touching L0; an illegal target fails and leaves
everything unchanged; a legal target updates L1 and drives L0 to the
projection of the new state. -/
def requestTransition (m : HSM) (target : HardwareState) :
    HSM × TransitionResult × List Cmd :=
  if m.l1 = target then
    (m, { success := true, current_state := m.l1 }, [])
  else if target ∉ validTransitions m.l1 then
    (m, { success := false, current_state := m.l1 }, [])
  else
    let r := applyLegacyState target m.l0 target
    ({ l1 := r.1, l0 := r.2.1 }, { success := true, current_state := target }, r.2.2)

/-- Model of `HardwareStateMachine::force_transition`: same update as a legal
request, with the legality check skipped. -/
def forceTransition (m : HSM) (target : HardwareState) :
    HSM × TransitionResult × List Cmd :=
  let r := applyLegacyState target m.l0 target
  ({ l1 := r.1, l0 := r.2.1 }, { success := true, current_state := target }, r.2.2)

/-- An L0 transition triggered from outside L1 (for example a direct
`start_drain` RPC): the L0 machine transitions; when its mode actually
changes, its registered observer callback runs `on_legacy_state_changed`
on the L1 machine. -/
def externalL0Transition (m : HSM) (target : L0State) : HSM × List Cmd :=
  let changed := m.l0.mode ≠ target
  let r := transitionTo m.l0 target
  ({ l1 := if changed then onLegacyStateChanged m.l1 target else m.l1, l0 := r.1 }, r.2)

/-- Model of `workflows::StateTransactionGuard`, reduced to its state: the entry L0
state recorded at construction, and the committed flag. -/
structure StateTransactionGuard where
  initial_state : L0State
  committed : Bool
deriving DecidableEq, Repr

/-- Guard construction: record the entry state and, when a target state is
given, immediately transition the L0 machine to it. -/
def guardCreate (s : SystemStateM) (target : Option L0State) :
    StateTransactionGuard × SystemStateM × List Cmd :=
  match target with
  | some t =>
    let r := transitionTo s t
    ({ initial_state := s.mode, committed := false }, r.1, r.2)
  | none => ({ initial_state := s.mode, committed := false }, s, [])

/-- Model of `commit_and_restore()`: transition back to the recorded entry state and
mark the guard committed. -/
def guardCommitAndRestore (g : StateTransactionGuard) (s : SystemStateM) :
    StateTransactionGuard × SystemStateM × List Cmd :=
  let r := transitionTo s g.initial_state
  ({ g with committed := true }, r.1, r.2)

/-- The guard destructor: if commit was never called, force a transition
back to the recorded entry state (rollback); otherwise do nothing. -/
def guardFinalize (g : StateTransactionGuard) (s : SystemStateM) :
    SystemStateM × List Cmd :=
  if g.committed then (s, [])
  else
    let r := transitionTo s g.initial_state
    (r.1, r.2)

/-- A primitive body running under a guard: the scope either completes
normally (commit path) or unwinds early through a stop-request return or a
thrown exception (destructor rollback path). The body is an arbitrary
state transformer returning the normal-completion flag. -/
def runWithGuard (s : SystemStateM) (target : Option L0State)
    (body : SystemStateM → SystemStateM × Bool) : SystemStateM × Bool :=
  let c := guardCreate s target
  let b := body c.2.1
  if b.2 then
    let k := guardCommitAndRestore c.1 b.1
    ((guardFinalize k.1 k.2.1).1, true)
  else
    ((guardFinalize c.1 b.1).1, false)

theorem runWithGuard_mode (s : SystemStateM) (target : Option L0State)
    (body : SystemStateM → SystemStateM × Bool) :
    (runWithGuard s target body).1.mode = s.mode := by
  unfold runWithGuard guardCommitAndRestore guardFinalize guardCreate
  by_cases h : (body (match target with
      | some t => ((transitionTo s t).1)
      | none => s)).2 <;>
    cases target <;> simp [h, transitionTo_mode]

/-- One polled load-cell reading as seen by `wait_for_empty_bottle`: the
snapshot of `status_.filtered_weight` and `status_.is_stable`. -/
structure LoadCellSample where
  weight : ℚ
  stable : Bool
deriving DecidableEq, Repr

/-- Result of `LoadCellDriver::wait_for_empty_bottle`. -/
structure WaitForEmptyResult where
  success : Bool
  empty_weight : ℚ
deriving DecidableEq, Repr

/-- The near-reference test of `wait_for_empty_bottle`: with no baseline
(reference 0) every sample passes; otherwise the filtered weight must be
within `tolerance` of the reference. -/
def nearReference (ref tol w : ℚ) : Bool :=
  ref = 0 || |w - ref| ≤ tol

/-- The polling loop of `LoadCellDriver::wait_for_empty_bottle`. One model
step per 500 ms poll; `n` is the iteration index (elapsed seconds = n/2),
`count` is `stable_count`, `last` is `last_weight`, `ws` is the iteration
at which `window_start_time` was taken, `sw` is `stable_weight`, `dyn` is
the stored `dynamic_empty_weight_`. The fuel argument only bounds the
recursion; running out of samples is modelled as the timeout outcome. -/
def waitEmptyLoop (ref tol timeout window : ℚ) (samples : List LoadCellSample) :
    ℕ → ℕ → ℕ → ℚ → Option ℕ → ℚ → Option ℚ → WaitForEmptyResult × Option ℚ
  | 0, _, _, _, _, _, dyn => ({ success := false, empty_weight := 0 }, dyn)
  | fuel + 1, n, count, last, ws, sw, dyn =>
    if timeout ≤ (n : ℚ) * (1 / 2) then ({ success := false, empty_weight := 0 }, dyn)
    else
      match samples.get? n with
      | none => ({ success := false, empty_weight := 0 }, dyn)
      | some smp =>
        if nearReference ref tol smp.weight && smp.stable then
          if |smp.weight - last| < 1 then
            if 3 ≤ count + 1 then
              if window ≤ 0 then
                ({ success := true, empty_weight := smp.weight }, some smp.weight)
              else
                match ws with
                | none =>
                  waitEmptyLoop ref tol timeout window samples fuel (n + 1)
                    (count + 1) smp.weight (some n) smp.weight dyn
                | some s0 =>
                  if 1 / 2 ≤ |smp.weight - sw| then
                    waitEmptyLoop ref tol timeout window samples fuel (n + 1)
                      (count + 1) smp.weight (some n) smp.weight dyn
                  else if window ≤ ((n : ℚ) - (s0 : ℚ)) * (1 / 2) then
                    ({ success := true, empty_weight := smp.weight }, some smp.weight)
                  else
                    waitEmptyLoop ref tol timeout window samples fuel (n + 1)
                      (count + 1) smp.weight (some s0) sw dyn
            else
              waitEmptyLoop ref tol timeout window samples fuel (n + 1)
                (count + 1) smp.weight ws sw dyn
          else
            waitEmptyLoop ref tol timeout window samples fuel (n + 1)
              0 smp.weight none sw dyn
        else
          waitEmptyLoop ref tol timeout window samples fuel (n + 1)
            0 smp.weight none sw dyn

/-- Model of `LoadCellDriver::wait_for_empty_bottle(tolerance, timeout, window)`,
started from a driver whose stored baseline is `dyn`; the reference weight
is the stored baseline or 0 when none has been earned yet. Returns the
call result and the baseline stored after the call. -/
def waitForEmptyBottle (dyn : Option ℚ) (tol timeout window : ℚ)
    (samples : List LoadCellSample) : WaitForEmptyResult × Option ℚ :=
  waitEmptyLoop (dyn.getD 0) tol timeout window samples samples.length 0 0 0 none 0 dyn

theorem waitEmptyLoop_baseline (ref tol timeout window : ℚ)
    (samples : List LoadCellSample) :
    ∀ (fuel n count : ℕ) (last : ℚ) (ws : Option ℕ) (sw : ℚ) (dyn : Option ℚ),
      ((waitEmptyLoop ref tol timeout window samples fuel n count last ws sw dyn).1.success = true →
        (waitEmptyLoop ref tol timeout window samples fuel n count last ws sw dyn).2 =
          some (waitEmptyLoop ref tol timeout window samples fuel n count last ws sw dyn).1.empty_weight) ∧
      ((waitEmptyLoop ref tol timeout window samples fuel n count last ws sw dyn).1.success = false →
        (waitEmptyLoop ref tol timeout window samples fuel n count last ws sw dyn).2 = dyn) := by
  intro fuel
  induction fuel with
  | zero =>
    intro n count last ws sw dyn
    simp [waitEmptyLoop]
  | succ m ih =>
    intro n count last ws sw dyn
    simp only [waitEmptyLoop]
    split
    · simp
    · split
      · simp
      · split
        · split
          · split
            · split
              · simp
              · split
                · exact ih (n + 1) (count + 1) _ (some n) _ dyn
                · split
                  · exact ih (n + 1) (count + 1) _ (some n) _ dyn
                  · split
                    · simp
                    · exact ih (n + 1) (count + 1) _ _ _ dyn
            · exact ih (n + 1) (count + 1) _ ws sw dyn
          · exact ih (n + 1) 0 _ none sw dyn
        · exact ih (n + 1) 0 _ none sw dyn

/-- Sample j of the polled stream is a near-baseline stable sample: it
exists, passes the near-reference test and is flagged stable. -/
def QualSample (ref tol : ℚ) (samples : List LoadCellSample) (j : ℕ) : Prop :=
  ∃ smp, samples.get? j = some smp ∧
    nearReference ref tol smp.weight = true ∧ smp.stable = true

theorem waitEmptyLoop_three_consecutive (ref tol timeout window : ℚ)
    (samples : List LoadCellSample) :
    ∀ (fuel n count : ℕ) (last : ℚ) (ws : Option ℕ) (sw : ℚ) (dyn : Option ℚ),
      count ≤ n →
      (∀ j, n - count ≤ j → j < n → QualSample ref tol samples j) →
      (waitEmptyLoop ref tol timeout window samples fuel n count last ws sw dyn).1.success = true →
      ∃ i, 2 ≤ i ∧ QualSample ref tol samples (i - 2) ∧
        QualSample ref tol samples (i - 1) ∧ QualSample ref tol samples i := by
  intro fuel
  induction fuel with
  | zero =>
    intro n count last ws sw dyn _ _ hsucc
    simp [waitEmptyLoop] at hsucc
  | succ m ih =>
    intro n count last ws sw dyn hcn hq hsucc
    rw [waitEmptyLoop] at hsucc
    split at hsucc
    · simp at hsucc
    · split at hsucc
      · simp at hsucc
      · rename_i smp heq
        split at hsucc
        · rename_i hnear
          split at hsucc
          · split at hsucc
            · rename_i hc3
              have hnn := hnear
              simp only [Bool.and_eq_true] at hnn
              have hqn : QualSample ref tol samples n := ⟨smp, heq, hnn.1, hnn.2⟩
              have hqextend : ∀ j, (n + 1) - (count + 1) ≤ j → j < n + 1 →
                  QualSample ref tol samples j := by
                intro j hj1 hj2
                by_cases hjn : j = n
                · exact hjn ▸ hqn
                · exact hq j (by omega) (by omega)
              split at hsucc
              · refine ⟨n, by omega, ?_, ?_, hqn⟩
                · exact hq (n - 2) (by omega) (by omega)
                · exact hq (n - 1) (by omega) (by omega)
              · split at hsucc
                · exact ih (n + 1) (count + 1) _ (some n) _ dyn (by omega) hqextend hsucc
                · split at hsucc
                  · exact ih (n + 1) (count + 1) _ (some n) _ dyn (by omega) hqextend hsucc
                  · split at hsucc
                    · refine ⟨n, by omega, ?_, ?_, hqn⟩
                      · exact hq (n - 2) (by omega) (by omega)
                      · exact hq (n - 1) (by omega) (by omega)
                    · exact ih (n + 1) (count + 1) _ _ _ dyn (by omega) hqextend hsucc
            · rename_i hc3
              have hnn := hnear
              simp only [Bool.and_eq_true] at hnn
              have hqn : QualSample ref tol samples n := ⟨smp, heq, hnn.1, hnn.2⟩
              have hqextend : ∀ j, (n + 1) - (count + 1) ≤ j → j < n + 1 →
                  QualSample ref tol samples j := by
                intro j hj1 hj2
                by_cases hjn : j = n
                · exact hjn ▸ hqn
                · exact hq j (by omega) (by omega)
              exact ih (n + 1) (count + 1) _ ws sw dyn (by omega) hqextend hsucc
          · exact ih (n + 1) 0 _ none sw dyn (by omega) (by intro j hj1 hj2; omega) hsucc
        · exact ih (n + 1) 0 _ none sw dyn (by omega) (by intro j hj1 hj2; omega) hsucc

/-- A contiguous stability window in the polled stream: from poll s0 to
poll i, at least `window` seconds apart at the 500 ms cadence, every
polled filtered weight stays within 0.5 g of the window-start weight. -/
def WindowSpan (samples : List LoadCellSample) (window : ℚ) : Prop :=
  ∃ s0 i smp0, s0 ≤ i ∧ samples.get? s0 = some smp0 ∧
    window ≤ ((i : ℚ) - (s0 : ℚ)) * (1 / 2) ∧
    ∀ j, s0 ≤ j → j ≤ i → ∃ smpj, samples.get? j = some smpj ∧
      |smpj.weight - smp0.weight| < 1 / 2

theorem waitEmptyLoop_window (ref tol timeout window : ℚ)
    (samples : List LoadCellSample) :
    ∀ (fuel n count : ℕ) (last : ℚ) (ws : Option ℕ) (sw : ℚ) (dyn : Option ℚ),
      (∀ s0, ws = some s0 → 3 ≤ count) →
      (∀ s0, ws = some s0 → s0 < n ∧
        (∃ smp0, samples.get? s0 = some smp0 ∧ smp0.weight = sw) ∧
        ∀ j, s0 ≤ j → j < n → ∃ smpj, samples.get? j = some smpj ∧
          |smpj.weight - sw| < 1 / 2) →
      0 < window →
      (waitEmptyLoop ref tol timeout window samples fuel n count last ws sw dyn).1.success = true →
      WindowSpan samples window := by
  intro fuel
  induction fuel with
  | zero =>
    intro n count last ws sw dyn _ _ _ hsucc
    simp [waitEmptyLoop] at hsucc
  | succ m ih =>
    intro n count last ws sw dyn hwc hw hpos hsucc
    rw [waitEmptyLoop] at hsucc
    split at hsucc
    · simp at hsucc
    · split at hsucc
      · simp at hsucc
      · rename_i smp heq
        split at hsucc
        · split at hsucc
          · split at hsucc
            · rename_i hc3
              split at hsucc
              · rename_i hw0
                exact absurd hpos (by linarith)
              · split at hsucc
                · refine ih (n + 1) (count + 1) _ (some n) _ dyn ?_ ?_ hpos hsucc
                  · intro s0 _; omega
                  · intro s0 hs0
                    obtain rfl : n = s0 := Option.some_injective _ hs0
                    refine ⟨by omega, ⟨smp, heq, rfl⟩, ?_⟩
                    intro j hj1 hj2
                    have hjn : j = n := by omega
                    subst hjn
                    exact ⟨smp, heq, by simp⟩
                · rename_i wsc s0
                  split at hsucc
                  · refine ih (n + 1) (count + 1) _ (some n) _ dyn ?_ ?_ hpos hsucc
                    · intro s1 _; omega
                    · intro s1 hs1
                      obtain rfl : n = s1 := Option.some_injective _ hs1
                      refine ⟨by omega, ⟨smp, heq, rfl⟩, ?_⟩
                      intro j hj1 hj2
                      have hjn : j = n := by omega
                      subst hjn
                      exact ⟨smp, heq, by simp⟩
                  · rename_i hclose
                    split at hsucc
                    · rename_i helapsed
                      obtain ⟨hs0n, ⟨smp0, hsmp0, hsw⟩, hall⟩ := hw s0 rfl
                      refine ⟨s0, n, smp0, by omega, hsmp0, helapsed, ?_⟩
                      intro j hj1 hj2
                      by_cases hjn : j = n
                      · subst hjn
                        refine ⟨smp, heq, ?_⟩
                        rw [hsw]
                        linarith [abs_nonneg (smp.weight - sw)]
                      · obtain ⟨smpj, hj3, hj4⟩ := hall j hj1 (by omega)
                        exact ⟨smpj, hj3, by rw [hsw]; exact hj4⟩
                    · refine ih (n + 1) (count + 1) _ (some s0) sw dyn ?_ ?_ hpos hsucc
                      · intro s1 _; omega
                      · intro s1 hs1
                        obtain rfl : s0 = s1 := Option.some_injective _ hs1
                        obtain ⟨hs0n, hbase, hall⟩ := hw s0 rfl
                        refine ⟨by omega, hbase, ?_⟩
                        intro j hj1 hj2
                        by_cases hjn : j = n
                        · subst hjn
                          exact ⟨smp, heq, by linarith⟩
                        · exact hall j hj1 (by omega)
            · rename_i hc3
              have hwsnone : ws = none := by
                cases hws : ws with
                | none => rfl
                | some s0 => exact absurd (hwc s0 hws) (by omega)
              subst hwsnone
              refine ih (n + 1) (count + 1) _ none sw dyn ?_ ?_ hpos hsucc
              · intro s0 h; cases h
              · intro s0 h; cases h
          · refine ih (n + 1) 0 _ none sw dyn ?_ ?_ hpos hsucc
            · intro s0 h; cases h
            · intro s0 h; cases h
        · refine ih (n + 1) 0 _ none sw dyn ?_ ?_ hpos hsucc
          · intro s0 h; cases h
          · intro s0 h; cases h

/-- Result of a primitive executor run (`workflows::ExecuteResult`),
reduced to the success flag. -/
structure ExecuteResult where
  success : Bool
deriving DecidableEq, Repr

/-- A liquid record of the program's hardware envelope
(`enose.experiment.Liquid`): identifier and bound pump index. -/
structure Liquid where
  id : ℕ
  pump_index : ℕ
deriving DecidableEq, Repr

/-- An inject component (`enose.experiment.InjectAction.Component`). -/
structure InjectComponent where
  liquid_id : ℕ
  ratio : ℚ
deriving DecidableEq, Repr

/-- The inject primitive parameters (`enose.experiment.InjectAction`). -/
structure InjectAction where
  target_volume_ml : ℚ
  components : List InjectComponent
  flow_rate_ml_min : ℚ
  tolerance : ℚ
  stable_timeout_s : ℚ
  target_weight_g : Option ℚ
deriving DecidableEq, Repr

/-- Model of `SystemState::InjectionParams`: per-pump commanded distances plus
speed and acceleration. -/
structure InjectionParams where
  pump_0_volume : ℚ
  pump_1_volume : ℚ
  pump_2_volume : ℚ
  pump_3_volume : ℚ
  pump_4_volume : ℚ
  pump_5_volume : ℚ
  pump_6_volume : ℚ
  pump_7_volume : ℚ
  speed : ℚ
  accel : ℚ
deriving DecidableEq, Repr

/-- The switch statement shared by both inject implementations: a distance
is stored only for pump indices 2, 3, 4 and 5; every other index falls
through and the parameters are left unchanged. -/
def setPumpVolume (p : InjectionParams) (idx : ℕ) (v : ℚ) : InjectionParams :=
  match idx with
  | 2 => { p with pump_2_volume := v }
  | 3 => { p with pump_3_volume := v }
  | 4 => { p with pump_4_volume := v }
  | 5 => { p with pump_5_volume := v }
  | _ => p

/-- All-zero injection parameters with the speed / acceleration derived
from the flow rate as both inject paths do: speed =
flow_rate_ml_min / 60 × 1000 and accel = 2 × speed. -/
def baseInjectionParams (act : InjectAction) : InjectionParams :=
  { pump_0_volume := 0, pump_1_volume := 0, pump_2_volume := 0
    pump_3_volume := 0, pump_4_volume := 0, pump_5_volume := 0
    pump_6_volume := 0, pump_7_volume := 0
    speed := act.flow_rate_ml_min / 60 * 1000
    accel := act.flow_rate_ml_min / 60 * 1000 * 2 }

/-- Per-pump distance computation of `InjectExecutor::execute`: the first
four components are assigned, in component order, to pumps 2..5 (the
liquid-to-pump binding of the hardware envelope is not consulted), each
with distance target_volume_ml × ratio × 1000. -/
def injectExecutorParams (act : InjectAction) : InjectionParams :=
  (List.range (min act.components.length 4)).foldl
    (fun p i =>
      match act.components.get? i with
      | some comp => setPumpVolume p (2 + i) (act.target_volume_ml * comp.ratio * 1000)
      | none => p)
    (baseInjectionParams act)

/-- Per-pump distance computation of
`ExperimentServiceImpl::execute_inject`: for each component the first
envelope liquid with a matching id is looked up and the distance
target_volume_ml × ratio × 1000 is stored for that liquid's pump index
through the 2..5-only switch. -/
def injectAssignStep (liquids : List Liquid) (vol : ℚ)
    (p : InjectionParams) (comp : InjectComponent) : InjectionParams :=
  match liquids.find? (fun l => l.id == comp.liquid_id) with
  | some l => setPumpVolume p l.pump_index (vol * comp.ratio * 1000)
  | none => p

def executeInjectParams (liquids : List Liquid) (act : InjectAction) : InjectionParams :=
  act.components.foldl (injectAssignStep liquids act.target_volume_ml)
    (baseInjectionParams act)

/-- The pump-state bookkeeping of `SystemState::start_inject`: every pump
with a positive commanded distance is marked RUNNING. -/
def markRunningPumps (p : PeripheralState) (pr : InjectionParams) : PeripheralState :=
  { p with
    pump_0 := if 0 < pr.pump_0_volume then PumpState.RUNNING else p.pump_0
    pump_1 := if 0 < pr.pump_1_volume then PumpState.RUNNING else p.pump_1
    pump_2 := if 0 < pr.pump_2_volume then PumpState.RUNNING else p.pump_2
    pump_3 := if 0 < pr.pump_3_volume then PumpState.RUNNING else p.pump_3
    pump_4 := if 0 < pr.pump_4_volume then PumpState.RUNNING else p.pump_4
    pump_5 := if 0 < pr.pump_5_volume then PumpState.RUNNING else p.pump_5
    pump_6 := if 0 < pr.pump_6_volume then PumpState.RUNNING else p.pump_6
    pump_7 := if 0 < pr.pump_7_volume then PumpState.RUNNING else p.pump_7 }

/-- Model of `SystemState::start_inject`: transition to INJECT, register the pumps
as axes, issue one composite G1 move with feedrate speed × 60, and mark
the pumps with non-zero distance RUNNING. -/
def startInject (s : SystemStateM) (pr : InjectionParams) : SystemStateM × List Cmd :=
  let r := transitionTo s L0State.INJECT
  ({ mode := r.1.mode, periph := markRunningPumps r.1.periph pr },
   r.2 ++ [Cmd.registerPumpsToAxis,
     Cmd.g1Move pr.pump_0_volume pr.pump_1_volume pr.pump_2_volume pr.pump_3_volume
       pr.pump_4_volume pr.pump_5_volume pr.pump_6_volume pr.pump_7_volume
       (pr.speed * 60)])

/-- The drain primitive parameters (`enose.experiment.DrainAction`). -/
structure DrainAction where
  empty_tolerance_g : ℚ
  timeout_s : ℚ
  stability_window_s : ℚ
deriving DecidableEq, Repr

/-- Model of `DrainExecutor::check_preconditions` without an L1 machine attached:
the system must be in INITIAL or INJECT. -/
def drainPrecondition (s : SystemStateM) : Bool :=
  s.mode = L0State.INITIAL || s.mode = L0State.INJECT

/-- Model of `DrainExecutor::execute` with a load cell attached. The `throws` flag
selects the exit path on which an exception unwinds out of the body (the
guard destructor rolls back); on the normal path both the wait success and
the wait timeout fall through to `commit_and_restore`. Returns the final
L0 machine, the stored baseline and the returned result (`none` meaning
the exception propagated). -/
def drainExecute (s : SystemStateM) (dyn : Option ℚ) (act : DrainAction)
    (samples : List LoadCellSample) (throws : Bool) :
    SystemStateM × Option ℚ × Option ExecuteResult :=
  if ¬ drainPrecondition s then (s, dyn, some { success := false })
  else
    let c := guardCreate s (some L0State.DRAIN)
    if throws then ((guardFinalize c.1 c.2.1).1, dyn, none)
    else
      let w := waitForEmptyBottle dyn act.empty_tolerance_g act.timeout_s
        act.stability_window_s samples
      let k := guardCommitAndRestore c.1 c.2.1
      ((guardFinalize k.1 k.2.1).1, w.2, some { success := true })

/-- Model of `InjectExecutor::check_preconditions` without an L1 machine attached. -/
def injectPrecondition (s : SystemStateM) (act : InjectAction) : Bool :=
  (0 < act.target_volume_ml : Bool) && (act.components ≠ [] : Bool) &&
  (|(act.components.map (fun c => c.ratio)).sum - 1| ≤ 1 / 100 : Bool) &&
  (s.mode = L0State.INITIAL : Bool)

/-- Model of `InjectExecutor::execute`: guard to INJECT, start the parallel
injection, run the weight feedback loop (success, timeout and stop-request
all break out of the loop without a state change), emit the consumable
events and `commit_and_restore`. -/
def injectExecute (s : SystemStateM) (act : InjectAction) (throws : Bool) :
    SystemStateM × Option ExecuteResult :=
  if ¬ injectPrecondition s act then (s, some { success := false })
  else
    let c := guardCreate s (some L0State.INJECT)
    if throws then ((guardFinalize c.1 c.2.1).1, none)
    else
      let st := startInject c.2.1 (injectExecutorParams act)
      let k := guardCommitAndRestore c.1 st.1
      ((guardFinalize k.1 k.2.1).1, some { success := true })

/-- The acquire primitive parameters, reduced to the fields the executor's
preconditions and termination dispatch read. -/
structure AcquireAction where
  gas_pump_pwm : ℚ
  max_duration_s : ℚ
deriving DecidableEq, Repr

/-- Model of `AcquireExecutor::check_preconditions` without an L1 machine attached. -/
def acquirePrecondition (s : SystemStateM) (act : AcquireAction) : Bool :=
  (0 ≤ act.gas_pump_pwm : Bool) && (act.gas_pump_pwm ≤ 100 : Bool) &&
  (s.mode = L0State.INITIAL : Bool)

/-- Model of `AcquireExecutor::execute`: guard to SAMPLE, run the chosen wait (none
of the waits performs an L0 transition; a stop request merely ends the
wait early) and `commit_and_restore`. -/
def acquireExecute (s : SystemStateM) (act : AcquireAction) (throws : Bool) :
    SystemStateM × Option ExecuteResult :=
  if ¬ acquirePrecondition s act then (s, some { success := false })
  else
    let c := guardCreate s (some L0State.SAMPLE)
    if throws then ((guardFinalize c.1 c.2.1).1, none)
    else
      let k := guardCommitAndRestore c.1 c.2.1
      ((guardFinalize k.1 k.2.1).1, some { success := true })

/-- The wash primitive parameters (`enose.experiment.WashAction`). -/
structure WashAction where
  repeat_count : ℕ
  target_weight_g : ℚ
  fill_timeout_s : ℚ
  drain_timeout_s : ℚ
  empty_tolerance_g : ℚ
  empty_stability_window_s : ℚ
deriving DecidableEq, Repr

/-- Model of `WashExecutor::check_preconditions`. -/
def washPrecondition (s : SystemStateM) (act : WashAction) : Bool :=
  (0 < act.repeat_count : Bool) && (0 < act.target_weight_g : Bool) &&
  (s.mode = L0State.INITIAL : Bool)

/-- The iteration loop of `WashExecutor::execute`: per iteration DRAIN
(wait for empty), CLEAN (fill monitoring, which performs no transition),
DRAIN (wait for empty), with a `check_stop_or_pause` between the phases;
a stop request returns early with the current state (the guard destructor
then rolls back). `stopAt` is the schedule of stop-check results, indexed
by check number; `drainSamples` gives the polled stream of each wait. -/
def washLoop (act : WashAction) (stopAt : ℕ → Bool)
    (drainSamples : ℕ → ℕ → List LoadCellSample) :
    ℕ → ℕ → SystemStateM → Option ℚ → SystemStateM × Option ℚ × Bool
  | 0, _, s, dyn => (s, dyn, true)
  | iters + 1, k, s, dyn =>
    if stopAt k then (s, dyn, false)
    else
      let sA := (transitionTo s L0State.DRAIN).1
      let w1 := waitForEmptyBottle dyn act.empty_tolerance_g act.drain_timeout_s
        act.empty_stability_window_s (drainSamples k 0)
      if stopAt (k + 1) then (sA, w1.2, false)
      else
        let sB := (transitionTo sA L0State.CLEAN).1
        if stopAt (k + 2) then (sB, w1.2, false)
        else
          let sC := (transitionTo sB L0State.DRAIN).1
          let w2 := waitForEmptyBottle w1.2 act.empty_tolerance_g act.drain_timeout_s
            act.empty_stability_window_s (drainSamples k 1)
          washLoop act stopAt drainSamples iters (k + 3) sC w2.2

/-- Model of `WashExecutor::execute`: a guard with no auto-target (the iterations
manage the L0 transitions themselves); on a stop request the executor
returns a failure result and the guard destructor rolls back; on normal
completion it commits and restores. -/
def washExecute (s : SystemStateM) (dyn : Option ℚ) (act : WashAction)
    (stopAt : ℕ → Bool) (drainSamples : ℕ → ℕ → List LoadCellSample)
    (throws : Bool) :
    SystemStateM × Option ℚ × Option ExecuteResult :=
  if ¬ washPrecondition s act then (s, dyn, some { success := false })
  else
    let c := guardCreate s none
    if throws then ((guardFinalize c.1 c.2.1).1, dyn, none)
    else
      let r := washLoop act stopAt drainSamples act.repeat_count 0 c.2.1 dyn
      if r.2.2 then
        let k := guardCommitAndRestore c.1 r.1
        ((guardFinalize k.1 k.2.1).1, r.2.1, some { success := true })
      else
        ((guardFinalize c.1 r.1).1, r.2.1, some { success := false })

theorem guardCreate_initial (s : SystemStateM) (target : Option L0State) :
    (guardCreate s target).1 = { initial_state := s.mode, committed := false } := by
  cases target <;> simp [guardCreate]

theorem guardFinalize_uncommitted_mode (g : StateTransactionGuard) (s : SystemStateM)
    (h : g.committed = false) : (guardFinalize g s).1.mode = g.initial_state := by
  simp [guardFinalize, h, transitionTo_mode]

theorem guardCommitAndRestore_spec (g : StateTransactionGuard) (s : SystemStateM) :
    (guardCommitAndRestore g s).2.1.mode = g.initial_state ∧
    (guardCommitAndRestore g s).1.committed = true := by
  simp [guardCommitAndRestore, transitionTo_mode]

theorem guardFinalize_committed (g : StateTransactionGuard) (s : SystemStateM)
    (h : g.committed = true) : (guardFinalize g s).1 = s := by
  simp [guardFinalize, h]

theorem drainExecute_mode (s : SystemStateM) (dyn : Option ℚ) (act : DrainAction)
    (samples : List LoadCellSample) (throws : Bool) :
    (drainExecute s dyn act samples throws).1.mode = s.mode := by
  unfold drainExecute
  split
  · rfl
  · simp only [guardCreate, guardCommitAndRestore, guardFinalize]
    split <;> simp [transitionTo_mode]

theorem injectExecute_mode (s : SystemStateM) (act : InjectAction) (throws : Bool) :
    (injectExecute s act throws).1.mode = s.mode := by
  unfold injectExecute
  split
  · rfl
  · simp only [guardCreate, guardCommitAndRestore, guardFinalize]
    split <;> simp [transitionTo_mode]

theorem acquireExecute_mode (s : SystemStateM) (act : AcquireAction) (throws : Bool) :
    (acquireExecute s act throws).1.mode = s.mode := by
  unfold acquireExecute
  split
  · rfl
  · simp only [guardCreate, guardCommitAndRestore, guardFinalize]
    split <;> simp [transitionTo_mode]

theorem washExecute_mode (s : SystemStateM) (dyn : Option ℚ) (act : WashAction)
    (stopAt : ℕ → Bool) (drainSamples : ℕ → ℕ → List LoadCellSample) (throws : Bool) :
    (washExecute s dyn act stopAt drainSamples throws).1.mode = s.mode := by
  unfold washExecute
  split
  · rfl
  · simp only [guardCreate, guardCommitAndRestore, guardFinalize]
    split
    · simp [transitionTo_mode]
    · split <;> simp [transitionTo_mode]

/-- C1: for each primitive executor (inject, drain, acquire, wash) and
every exit path of execute() — success or feedback timeout (both fall
through to commit_and_restore), stop-request cancellation, precondition
failure, or a thrown exception unwinding through the guard destructor —
the L0 mode after execute() returns equals the L0 mode on entry: the
transaction guard records the entry state at construction and both
commit_and_restore and the uncommitted destructor transition back to it. -/
theorem executors_restore_entry_L0_state :
    (∀ (s : SystemStateM) (dyn : Option ℚ) (act : DrainAction)
        (samples : List LoadCellSample) (throws : Bool),
      (drainExecute s dyn act samples throws).1.mode = s.mode) ∧
    (∀ (s : SystemStateM) (act : InjectAction) (throws : Bool),
      (injectExecute s act throws).1.mode = s.mode) ∧
    (∀ (s : SystemStateM) (act : AcquireAction) (throws : Bool),
      (acquireExecute s act throws).1.mode = s.mode) ∧
    (∀ (s : SystemStateM) (dyn : Option ℚ) (act : WashAction)
        (stopAt : ℕ → Bool) (drainSamples : ℕ → ℕ → List LoadCellSample)
        (throws : Bool),
      (washExecute s dyn act stopAt drainSamples throws).1.mode = s.mode) :=
  ⟨drainExecute_mode, injectExecute_mode, acquireExecute_mode, washExecute_mode⟩

/-- C7: a hardware-feedback timeout inside the drain primitive is not
fatal: when wait_for_empty_bottle returns failure by timeout, the drain
executor logs and proceeds, the transaction guard still commits and
restores the entry state, the primitive returns a success result, and the
stored baseline is left unchanged. -/
theorem drain_timeout_not_fatal :
    ∀ (s : SystemStateM) (dyn : Option ℚ) (act : DrainAction)
      (samples : List LoadCellSample),
      drainPrecondition s = true →
      (waitForEmptyBottle dyn act.empty_tolerance_g act.timeout_s
        act.stability_window_s samples).1.success = false →
      (drainExecute s dyn act samples false).2.2 = some { success := true } ∧
      (drainExecute s dyn act samples false).1.mode = s.mode ∧
      (drainExecute s dyn act samples false).2.1 = dyn := by
  intro s dyn act samples hpre hfail
  have hfail' : (waitEmptyLoop (dyn.getD 0) act.empty_tolerance_g act.timeout_s
      act.stability_window_s samples samples.length 0 0 0 none 0 dyn).1.success = false := hfail
  have hbase := (waitEmptyLoop_baseline (dyn.getD 0) act.empty_tolerance_g act.timeout_s
    act.stability_window_s samples samples.length 0 0 0 none 0 dyn).2 hfail'
  refine ⟨?_, drainExecute_mode s dyn act samples false, ?_⟩
  · simp [drainExecute, hpre, guardCreate, guardCommitAndRestore, guardFinalize]
  · simp only [drainExecute, hpre, not_true_eq_false, if_false, Bool.not_true]
    simp only [guardCreate, guardCommitAndRestore, guardFinalize]
    simpa using hbase

theorem drain_timeout_not_fatal_witness :
    drainPrecondition initialSystemState = true ∧
    (waitForEmptyBottle none (2 : ℚ) (0 : ℚ) (5 : ℚ) []).1.success = false ∧
    (drainExecute initialSystemState none
      { empty_tolerance_g := 2, timeout_s := 0, stability_window_s := 5 } [] false).2.2 =
      some { success := true } :=
  ⟨by decide, by decide,
   (drain_timeout_not_fatal initialSystemState none
     { empty_tolerance_g := 2, timeout_s := 0, stability_window_s := 5 } []
     (by decide) (by decide)).1⟩

/-- C5: wait_for_empty_bottle polls at 500 ms (one model step per poll);
success requires three consecutive near-baseline stable samples and then,
when the stability window is positive, a contiguous window of that length
in which every polled filtered weight stays within 0.5 g of the
window-start weight; on every success the stored dynamic empty baseline is
set and equals the returned empty weight; on timeout it returns failure
with the baseline unchanged; with no baseline set the near-reference test
passes every sample, leaving only the stability criterion. -/
theorem wait_for_empty_bottle_spec :
    ∀ (dyn : Option ℚ) (tol timeout window : ℚ) (samples : List LoadCellSample),
      ((waitForEmptyBottle dyn tol timeout window samples).1.success = true →
        (waitForEmptyBottle dyn tol timeout window samples).2 =
          some (waitForEmptyBottle dyn tol timeout window samples).1.empty_weight) ∧
      ((waitForEmptyBottle dyn tol timeout window samples).1.success = false →
        (waitForEmptyBottle dyn tol timeout window samples).2 = dyn) ∧
      ((waitForEmptyBottle dyn tol timeout window samples).1.success = true →
        ∃ i, 2 ≤ i ∧ QualSample (dyn.getD 0) tol samples (i - 2) ∧
          QualSample (dyn.getD 0) tol samples (i - 1) ∧
          QualSample (dyn.getD 0) tol samples i) ∧
      ((waitForEmptyBottle dyn tol timeout window samples).1.success = true →
        0 < window → WindowSpan samples window) ∧
      (∀ w, nearReference 0 tol w = true) := by
  intro dyn tol timeout window samples
  refine ⟨?_, ?_, ?_, ?_, ?_⟩
  · exact (waitEmptyLoop_baseline (dyn.getD 0) tol timeout window samples
      samples.length 0 0 0 none 0 dyn).1
  · exact (waitEmptyLoop_baseline (dyn.getD 0) tol timeout window samples
      samples.length 0 0 0 none 0 dyn).2
  · intro hsucc
    exact waitEmptyLoop_three_consecutive (dyn.getD 0) tol timeout window samples
      samples.length 0 0 0 none 0 dyn (by omega) (by intro j h1 h2; omega) hsucc
  · intro hsucc hpos
    exact waitEmptyLoop_window (dyn.getD 0) tol timeout window samples
      samples.length 0 0 0 none 0 dyn (by intro s0 h; cases h)
      (by intro s0 h; cases h) hpos hsucc
  · intro w
    simp [nearReference]

theorem wait_for_empty_bottle_spec_witness :
    (waitForEmptyBottle none 1 100 0
      [{ weight := 5, stable := true }, { weight := 5, stable := true },
       { weight := 5, stable := true }, { weight := 5, stable := true }]).1.success = true ∧
    (waitForEmptyBottle none 1 100 0
      [{ weight := 5, stable := true }, { weight := 5, stable := true },
       { weight := 5, stable := true }, { weight := 5, stable := true }]).2 =
      some (waitForEmptyBottle none 1 100 0
        [{ weight := 5, stable := true }, { weight := 5, stable := true },
         { weight := 5, stable := true }, { weight := 5, stable := true }]).1.empty_weight :=
  ⟨by norm_num [waitForEmptyBottle, waitEmptyLoop, nearReference],
   (wait_for_empty_bottle_spec none 1 100 0
     [{ weight := 5, stable := true }, { weight := 5, stable := true },
      { weight := 5, stable := true }, { weight := 5, stable := true }]).1
     (by norm_num [waitForEmptyBottle, waitEmptyLoop, nearReference])⟩

/-- C2 counterexample: a self-transition request succeeds (the early
return in request_transition) even though no state is in its own static
legal-successor list — for IDLE, success is reported while IDLE is not in
legal_successors(IDLE), so "success iff target in legal_successors"
fails. -/
theorem request_transition_self_counterexample :
    (requestTransition { l1 := HardwareState.IDLE, l0 := initialSystemState }
      HardwareState.IDLE).2.1.success = true ∧
    HardwareState.IDLE ∉ validTransitions HardwareState.IDLE := by
  constructor
  · rfl
  · decide

/-- C2 amended: request_transition(target) succeeds iff target equals the
current state (early-return path, which leaves L0 untouched) or target is
in the static legal-successor set of the current state; on success the L1
current state becomes target; on failure nothing changes; and on every
successful transition to a different state the L0 machine is driven to the
projection to_legacy_state of the new L1 state. -/
theorem request_transition_legality_spec :
    ∀ (m : HSM) (target : HardwareState),
      ((requestTransition m target).2.1.success = true ↔
        (target = m.l1 ∨ target ∈ validTransitions m.l1)) ∧
      ((requestTransition m target).2.1.success = true →
        (requestTransition m target).1.l1 = target) ∧
      ((requestTransition m target).2.1.success = false →
        (requestTransition m target).1 = m) ∧
      (target = m.l1 → (requestTransition m target).1 = m) ∧
      (target ≠ m.l1 → (requestTransition m target).2.1.success = true →
        (requestTransition m target).1.l0.mode = toLegacyState target) := by
  intro m target
  unfold requestTransition
  by_cases h1 : m.l1 = target
  · simp [h1]
  · have h1x : ¬ target = m.l1 := fun h => h1 h.symm
    by_cases h2 : target ∈ validTransitions m.l1
    · simp only [h1, if_false, h2, not_true_eq_false, if_neg, ite_false]
      refine ⟨?_, ?_, ?_, ?_, ?_⟩
      · simp [h1x, h2]
      · intro _
        simp [applyLegacyState, onLegacyStateChanged]
      · intro h
        simp at h
      · intro h
        exact absurd h h1x
      · intro _ _
        simp [applyLegacyState, transitionTo_mode]
    · simp [h1, h1x, h2]

theorem request_transition_legality_spec_witness :
    (requestTransition { l1 := HardwareState.IDLE, l0 := initialSystemState }
      HardwareState.DRAIN_PREPARING).1.l0.mode =
      toLegacyState HardwareState.DRAIN_PREPARING :=
  (request_transition_legality_spec
      { l1 := HardwareState.IDLE, l0 := initialSystemState }
      HardwareState.DRAIN_PREPARING).2.2.2.2 (by decide)
    ((request_transition_legality_spec
      { l1 := HardwareState.IDLE, l0 := initialSystemState }
      HardwareState.DRAIN_PREPARING).1.mpr (Or.inr (by decide)))

/-- The representative L1 state named by the specification for each L0
mode: INITIAL to IDLE, INJECT to INJECT_RUNNING, DRAIN to DRAIN_RUNNING,
CLEAN to CLEAN_FILLING, SAMPLE to SAMPLE_ACQUIRING. -/
def claimRepresentative : L0State → HardwareState
  | L0State.INITIAL => HardwareState.IDLE
  | L0State.INJECT => HardwareState.INJECT_RUNNING
  | L0State.DRAIN => HardwareState.DRAIN_RUNNING
  | L0State.CLEAN => HardwareState.CLEAN_FILLING
  | L0State.SAMPLE => HardwareState.SAMPLE_ACQUIRING

theorem fromLegacyState_eq_claimRepresentative (x : L0State) :
    fromLegacyState x = claimRepresentative x := by
  cases x <;> rfl

/-- C4: whenever the L0 state actually changes (L0 notifies its observer
only on a real change, and a no-op transition emits nothing), the L1
observer callback maps the new L0 mode to its representative L1 state and
overwrites L1's current state, except when L1's current state already
projects to the new L0 mode, in which case L1 is left unchanged; the
projection of the resulting L1 state always equals the new L0 mode, so the
two layers cannot keep re-triggering each other. -/
theorem l1_observer_sync_spec :
    (∀ (cur : HardwareState) (newL0 : L0State),
      onLegacyStateChanged cur newL0 =
        if toLegacyState cur = newL0 then cur else claimRepresentative newL0) ∧
    (∀ (cur : HardwareState) (newL0 : L0State),
      toLegacyState (onLegacyStateChanged cur newL0) = newL0) ∧
    (∀ s : SystemStateM, transitionTo s s.mode = (s, [])) ∧
    (∀ (m : HSM) (t : L0State), m.l0.mode = t → externalL0Transition m t = (m, [])) ∧
    (∀ (m : HSM) (t : L0State), m.l0.mode ≠ t →
      (externalL0Transition m t).1.l1 = onLegacyStateChanged m.l1 t ∧
      (externalL0Transition m t).1.l0.mode = t) := by
  refine ⟨?_, ?_, transitionTo_self, ?_, ?_⟩
  · intro cur newL0
    unfold onLegacyStateChanged
    by_cases h : toLegacyState cur = newL0 <;>
      simp [h, fromLegacyState_eq_claimRepresentative]
  · intro cur newL0
    unfold onLegacyStateChanged
    by_cases h : toLegacyState cur = newL0
    · simp [h]
    · simp only [h, if_false, ite_false]
      cases newL0 <;> rfl
  · intro m t h
    subst h
    unfold externalL0Transition
    simp [transitionTo_self]
  · intro m t h
    unfold externalL0Transition
    simp [h, transitionTo_mode]

theorem l1_observer_sync_spec_witness :
    (externalL0Transition { l1 := HardwareState.IDLE, l0 := initialSystemState }
      L0State.DRAIN).1.l1 =
      onLegacyStateChanged HardwareState.IDLE L0State.DRAIN :=
  (l1_observer_sync_spec.2.2.2.2
    { l1 := HardwareState.IDLE, l0 := initialSystemState }
    L0State.DRAIN (by decide)).1

/-- One-field emitter: valve_outlet SET_PIN when changed. -/
def emitValveOutlet (cur tgt : PeripheralState) : List Cmd :=
  if tgt.valve_outlet ≠ cur.valve_outlet then
    [Cmd.setPin Pin.valve_outlet tgt.valve_outlet] else []

/-- One-field emitter: valve_pinch SET_PIN when changed, expanded with the
two coupled inject-fan commands. -/
def emitValvePinch (cur tgt : PeripheralState) : List Cmd :=
  if tgt.valve_pinch ≠ cur.valve_pinch then
    [Cmd.setPin Pin.valve_pinch tgt.valve_pinch,
     Cmd.setPin Pin.inject_fan tgt.valve_pinch,
     Cmd.setPin Pin.inject_fan_2 tgt.valve_pinch] else []

/-- One-field emitter: valve_waste SET_PIN when changed. -/
def emitValveWaste (cur tgt : PeripheralState) : List Cmd :=
  if tgt.valve_waste ≠ cur.valve_waste then
    [Cmd.setPin Pin.valve_waste tgt.valve_waste] else []

/-- One-field emitter: valve_air SET_PIN when changed. -/
def emitValveAir (cur tgt : PeripheralState) : List Cmd :=
  if tgt.valve_air ≠ cur.valve_air then
    [Cmd.setPin Pin.valve_air tgt.valve_air] else []

/-- One-field emitter: air_pump_pwm SET_PIN when changed. -/
def emitAirPumpPwm (cur tgt : PeripheralState) : List Cmd :=
  if tgt.air_pump_pwm ≠ cur.air_pump_pwm then
    [Cmd.setPin Pin.air_pump_pwm tgt.air_pump_pwm] else []

/-- One-field emitter: cleaning_pump when changed, expanded into the
10-step soft-start ramp on a rise and a single SET_PIN otherwise. -/
def emitCleaningPump (cur tgt : PeripheralState) : List Cmd :=
  if tgt.cleaning_pump ≠ cur.cleaning_pump then
    (if cur.cleaning_pump < tgt.cleaning_pump then
      rampCmds cur.cleaning_pump tgt.cleaning_pump
     else [Cmd.setPin Pin.cleaning_pump tgt.cleaning_pump]) else []

/-- The heater_chamber emitter as the claim's field-wise diff would have
it: one SET_PIN when the field changes. The source's heater emission is
commented out, so the code-order list below does not contain it. -/
def emitHeaterClaim (cur tgt : PeripheralState) : List Cmd :=
  if tgt.heater_chamber ≠ cur.heater_chamber then
    [Cmd.setPin Pin.heater_chamber tgt.heater_chamber] else []

/-- Concatenation of per-field diff emissions in a given field order. -/
def fieldDiffCmds (order : List (PeripheralState → PeripheralState → List Cmd))
    (cur tgt : PeripheralState) : List Cmd :=
  (order.map (fun f => f cur tgt)).flatten

/-- The field order actually used by `apply_peripheral_state`. -/
def codeEmitOrder : List (PeripheralState → PeripheralState → List Cmd) :=
  [emitValveOutlet, emitValvePinch, emitValveWaste, emitValveAir,
   emitAirPumpPwm, emitCleaningPump,
   emitPumpStop 0, emitPumpStop 1, emitPumpStop 2, emitPumpStop 3,
   emitPumpStop 4, emitPumpStop 5, emitPumpStop 6, emitPumpStop 7]

/-- The declaration order of the PeripheralState fields, as the claim
states it: valve_waste, valve_pinch, valve_air, valve_outlet,
air_pump_pwm, cleaning_pump, the stepper pumps, heater_chamber. -/
def declEmitOrder : List (PeripheralState → PeripheralState → List Cmd) :=
  [emitValveWaste, emitValvePinch, emitValveAir, emitValveOutlet,
   emitAirPumpPwm, emitCleaningPump,
   emitPumpStop 0, emitPumpStop 1, emitPumpStop 2, emitPumpStop 3,
   emitPumpStop 4, emitPumpStop 5, emitPumpStop 6, emitPumpStop 7,
   emitHeaterClaim]

theorem applyPeripheralStateCmds_eq_fieldDiff (cur tgt : PeripheralState) :
    applyPeripheralStateCmds cur tgt = fieldDiffCmds codeEmitOrder cur tgt := by
  simp [applyPeripheralStateCmds, fieldDiffCmds, codeEmitOrder,
    emitValveOutlet, emitValvePinch, emitValveWaste, emitValveAir,
    emitAirPumpPwm, emitCleaningPump]

/-- C3 amended: for every L0 transition with target different from the
current mode, the emitted command sequence is exactly the stepper
auto-stop emission (one ENOSE_ASYNC_STOP, issued when any stepper pump
was RUNNING in the previous vector, preceding all other emissions)
followed by the field-wise diff between the prior peripheral vector
(with all pumps marked STOPPED when the auto-stop fired) and the target
mode's table vector — but in the source's fixed emission order
valve_outlet, valve_pinch, valve_waste, valve_air, air_pump_pwm,
cleaning_pump, pumps 0..7, not in the declaration order of the
PeripheralState fields; the expansions are the two inject-fan commands
coupled to a pinch-valve change and the 10-step soft-start ramp when the
wash-pump PWM rises, and a heater_chamber difference emits nothing. -/
theorem l0_transition_emits_ordered_diff :
    ∀ (s : SystemStateM) (t : L0State), s.mode ≠ t →
      (transitionTo s t).2 =
        (if isAnyPumpRunning s.periph then [Cmd.asyncStop] else []) ++
          fieldDiffCmds codeEmitOrder
            (if isAnyPumpRunning s.periph then stopAllPumps s.periph else s.periph)
            (STATE_DEFINITIONS t) ∧
      (transitionTo s t).1 = { mode := t, periph := STATE_DEFINITIONS t } := by
  intro s t h
  unfold transitionTo
  by_cases hr : isAnyPumpRunning s.periph <;>
    simp [h, hr, applyPeripheralStateCmds_eq_fieldDiff]

theorem l0_transition_emits_ordered_diff_witness :
    (transitionTo initialSystemState L0State.DRAIN).2 =
      (if isAnyPumpRunning initialSystemState.periph then [Cmd.asyncStop] else []) ++
        fieldDiffCmds codeEmitOrder
          (if isAnyPumpRunning initialSystemState.periph then
            stopAllPumps initialSystemState.periph
           else initialSystemState.periph)
          (STATE_DEFINITIONS L0State.DRAIN) :=
  (l0_transition_emits_ordered_diff initialSystemState L0State.DRAIN (by decide)).1

/-- C3 counterexample: on the INITIAL to DRAIN transition the code emits
SET_PIN valve_outlet before SET_PIN valve_waste, while the field-wise
diff taken in the declaration order of the PeripheralState fields lists
valve_waste first — so the emitted sequence is not the
declaration-ordered diff. -/
theorem l0_transition_declaration_order_counterexample :
    (transitionTo initialSystemState L0State.DRAIN).2 ≠
      fieldDiffCmds declEmitOrder (STATE_DEFINITIONS L0State.INITIAL)
        (STATE_DEFINITIONS L0State.DRAIN) := by
  decide

/-- Per-pump distance read access by pump index. -/
def pumpVolume (p : InjectionParams) : ℕ → ℚ
  | 0 => p.pump_0_volume
  | 1 => p.pump_1_volume
  | 2 => p.pump_2_volume
  | 3 => p.pump_3_volume
  | 4 => p.pump_4_volume
  | 5 => p.pump_5_volume
  | 6 => p.pump_6_volume
  | 7 => p.pump_7_volume
  | _ + 8 => 0

/-- The pump index bound to a component's liquid in the hardware envelope:
the pump index of the first envelope liquid whose id matches. -/
def boundPumpIndex (liquids : List Liquid) (c : InjectComponent) : Option ℕ :=
  (liquids.find? (fun l => l.id == c.liquid_id)).map (fun l => l.pump_index)

/-- Accumulator step for the ratio of the last component bound to pump k. -/
def lastBoundStep (liquids : List Liquid) (k : ℕ)
    (acc : Option ℚ) (c : InjectComponent) : Option ℚ :=
  if boundPumpIndex liquids c = some k then some c.ratio else acc

/-- The ratio of the last component of the list whose liquid is bound to
pump k, if any (later components overwrite earlier ones, as the fold in
execute_inject does). -/
def lastBoundRatio (liquids : List Liquid) (comps : List InjectComponent) (k : ℕ) :
    Option ℚ :=
  comps.foldl (lastBoundStep liquids k) none

theorem setPumpVolume_get_eq (p : InjectionParams) (v : ℚ) (k : ℕ)
    (hk : k = 2 ∨ k = 3 ∨ k = 4 ∨ k = 5) :
    pumpVolume (setPumpVolume p k v) k = v := by
  rcases hk with rfl | rfl | rfl | rfl <;> rfl

theorem setPumpVolume_get_ne (p : InjectionParams) (j : ℕ) (v : ℚ) (k : ℕ)
    (h : j ≠ k) : pumpVolume (setPumpVolume p j v) k = pumpVolume p k := by
  unfold setPumpVolume
  split <;>
    (rcases k with _ | _ | _ | _ | _ | _ | _ | _ | k <;> simp_all [pumpVolume])

theorem setPumpVolume_get_outside (p : InjectionParams) (j : ℕ) (v : ℚ) (k : ℕ)
    (h : k ≠ 2 ∧ k ≠ 3 ∧ k ≠ 4 ∧ k ≠ 5) :
    pumpVolume (setPumpVolume p j v) k = pumpVolume p k := by
  unfold setPumpVolume
  split <;>
    (rcases k with _ | _ | _ | _ | _ | _ | _ | _ | k <;> simp_all [pumpVolume])

theorem lastBound_foldl_acc (liquids : List Liquid) (k : ℕ) :
    ∀ (comps : List InjectComponent) (acc : Option ℚ),
      comps.foldl (lastBoundStep liquids k) acc =
        (comps.foldl (lastBoundStep liquids k) none).elim acc some := by
  intro comps
  induction comps with
  | nil => intro acc; rfl
  | cons c cs ih =>
    intro acc
    simp only [List.foldl_cons]
    by_cases h : boundPumpIndex liquids c = some k
    · simp only [lastBoundStep, h, if_pos]
      rw [ih (some c.ratio)]
      cases cs.foldl (lastBoundStep liquids k) none <;> rfl
    · simp only [lastBoundStep, h, if_neg, ite_false]
      exact ih acc

theorem executeInject_fold_char (liquids : List Liquid) (vol : ℚ) (k : ℕ)
    (hk : k = 2 ∨ k = 3 ∨ k = 4 ∨ k = 5) :
    ∀ (comps : List InjectComponent) (p : InjectionParams),
      pumpVolume (comps.foldl (injectAssignStep liquids vol) p) k =
        (comps.foldl (lastBoundStep liquids k) none).elim (pumpVolume p k)
          (fun r => vol * r * 1000) := by
  intro comps
  induction comps with
  | nil => intro p; rfl
  | cons c cs ih =>
    intro p
    simp only [List.foldl_cons]
    by_cases hb : boundPumpIndex liquids c = some k
    · obtain ⟨l, hfind, hpk⟩ : ∃ l,
          liquids.find? (fun l => l.id == c.liquid_id) = some l ∧ l.pump_index = k := by
        unfold boundPumpIndex at hb
        cases hf : liquids.find? (fun l => l.id == c.liquid_id) with
        | none =>
          rw [hf] at hb
          exact Option.noConfusion hb
        | some l =>
          rw [hf] at hb
          exact ⟨l, rfl, Option.some_injective _ hb⟩
      have hstep : injectAssignStep liquids vol p c =
          setPumpVolume p k (vol * c.ratio * 1000) := by
        unfold injectAssignStep
        rw [hfind]
        show setPumpVolume p l.pump_index (vol * c.ratio * 1000) =
          setPumpVolume p k (vol * c.ratio * 1000)
        rw [hpk]
      have hlb : lastBoundStep liquids k none c = some c.ratio := by
        simp [lastBoundStep, hb]
      rw [hstep, ih, hlb, lastBound_foldl_acc liquids k cs (some c.ratio),
        setPumpVolume_get_eq p _ k hk]
      cases cs.foldl (lastBoundStep liquids k) none <;> rfl
    · have hlb : lastBoundStep liquids k none c = none := by
        simp [lastBoundStep, hb]
      have hstep : pumpVolume (injectAssignStep liquids vol p c) k = pumpVolume p k := by
        unfold injectAssignStep
        cases hf : liquids.find? (fun l => l.id == c.liquid_id) with
        | none => rfl
        | some l =>
          have hne : l.pump_index ≠ k := by
            intro hc
            apply hb
            unfold boundPumpIndex
            rw [hf]
            simp [hc]
          exact setPumpVolume_get_ne p l.pump_index _ k hne
      rw [ih, hlb, hstep]

theorem executeInject_fold_outside (liquids : List Liquid) (vol : ℚ) (k : ℕ)
    (hk : k ≠ 2 ∧ k ≠ 3 ∧ k ≠ 4 ∧ k ≠ 5) :
    ∀ (comps : List InjectComponent) (p : InjectionParams),
      pumpVolume (comps.foldl (injectAssignStep liquids vol) p) k = pumpVolume p k := by
  intro comps
  induction comps with
  | nil => intro p; rfl
  | cons c cs ih =>
    intro p
    simp only [List.foldl_cons]
    rw [ih]
    unfold injectAssignStep
    cases hf : liquids.find? (fun l => l.id == c.liquid_id) with
    | none => rfl
    | some l => exact setPumpVolume_get_outside p l.pump_index _ k hk

/-- C6 amended: in execute_inject each component's distance is
target_volume_ml × ratio × 1000, but the assignment switch only stores
distances for pump indices 2..5: pumps 0, 1, 6 and 7 always stay at zero
(components bound to those pumps are silently dropped), and for each pump
k in 2..5 the stored distance is that of the last component whose
envelope-bound pump index is k, or 0 when no component is bound to k.
(The InjectExecutor class path does not consult the binding at all: it
assigns the first four components to pumps 2..5 in component order, as
modelled by injectExecutorParams.) -/
theorem execute_inject_distance_assignment :
    ∀ (liquids : List Liquid) (act : InjectAction),
      (pumpVolume (executeInjectParams liquids act) 0 = 0 ∧
       pumpVolume (executeInjectParams liquids act) 1 = 0 ∧
       pumpVolume (executeInjectParams liquids act) 6 = 0 ∧
       pumpVolume (executeInjectParams liquids act) 7 = 0) ∧
      (∀ k, (k = 2 ∨ k = 3 ∨ k = 4 ∨ k = 5) →
        pumpVolume (executeInjectParams liquids act) k =
          (lastBoundRatio liquids act.components k).elim 0
            (fun r => act.target_volume_ml * r * 1000)) := by
  intro liquids act
  constructor
  · refine ⟨?_, ?_, ?_, ?_⟩ <;>
      exact executeInject_fold_outside liquids act.target_volume_ml _
        (by omega) act.components (baseInjectionParams act)
  · intro k hk
    have h := executeInject_fold_char liquids act.target_volume_ml k hk
      act.components (baseInjectionParams act)
    have hbase : pumpVolume (baseInjectionParams act) k = 0 := by
      rcases hk with rfl | rfl | rfl | rfl <;> rfl
    rw [executeInjectParams, lastBoundRatio, h, hbase]

theorem execute_inject_distance_assignment_witness :
    pumpVolume (executeInjectParams [{ id := 3, pump_index := 2 }]
      { target_volume_ml := 50, components := [{ liquid_id := 3, ratio := 1 }],
        flow_rate_ml_min := 5, tolerance := 1 / 2, stable_timeout_s := 30,
        target_weight_g := none }) 2 =
      (lastBoundRatio [{ id := 3, pump_index := 2 }]
        [{ liquid_id := 3, ratio := 1 }] 2).elim 0 (fun r => 50 * r * 1000) :=
  (execute_inject_distance_assignment [{ id := 3, pump_index := 2 }]
    { target_volume_ml := 50, components := [{ liquid_id := 3, ratio := 1 }],
      flow_rate_ml_min := 5, tolerance := 1 / 2, stable_timeout_s := 30,
      target_weight_g := none }).2 2 (Or.inl rfl)

/-- C6 counterexample: with an envelope binding liquid 7 to pump index 0
and a single full-ratio component of that liquid, the claim requires the
distance target_volume × 1 × 1000 = 1000 on pump 0, but execute_inject's
switch drops indices outside 2..5 and pump 0 stays at 0. -/
theorem inject_pump_binding_counterexample :
    boundPumpIndex [{ id := 7, pump_index := 0 }] { liquid_id := 7, ratio := 1 } =
      some 0 ∧
    (executeInjectParams [{ id := 7, pump_index := 0 }]
      { target_volume_ml := 1, components := [{ liquid_id := 7, ratio := 1 }],
        flow_rate_ml_min := 5, tolerance := 1 / 2, stable_timeout_s := 30,
        target_weight_g := none }).pump_0_volume = 0 ∧
    (1 : ℚ) * 1 * 1000 ≠ 0 :=
  ⟨by decide, by decide, by norm_num⟩

/-- Experiment lifecycle state (`enose.experiment.ExperimentState`). -/
inductive ExpState
  | EXP_IDLE
  | EXP_LOADED
  | EXP_RUNNING
  | EXP_PAUSED
  | EXP_ABORTING
  | EXP_COMPLETED
  | EXP_ERROR
  | EXP_ABORTED
deriving DecidableEq, Repr

/-- The orchestrator's mutable execution state
(`ExperimentServiceImpl`), reduced to the fields StopExperiment and the
executor thread touch; the loaded program and step name are identifiers. -/
structure OrchState where
  state : ExpState
  loaded_program : Option ℕ
  current_step_index : ℕ
  current_step_name : Option ℕ
  loop_iteration : ℕ
  loop_total : ℕ
  error_message : Option ℕ
  stop_requested : Bool
  pause_requested : Bool
deriving DecidableEq, Repr

/-- Observable side effects of StopExperiment besides the state update. -/
inductive StopEffect
  | notifyPauseCV
  | emitExperimentStopped
deriving DecidableEq, Repr

/-- Model of `ExperimentServiceImpl::StopExperiment`: unload on LOADED or a
terminal state, no-op on IDLE, and stop-request on RUNNING / PAUSED
(set the stop flag, wake the pause condition variable, go to ABORTING and
emit EXPERIMENT_STOPPED). -/
def stopExperiment (st : OrchState) : OrchState × List StopEffect :=
  if st.state = ExpState.EXP_LOADED ∨ st.state = ExpState.EXP_COMPLETED ∨
      st.state = ExpState.EXP_ERROR ∨ st.state = ExpState.EXP_ABORTED then
    ({ st with
        loaded_program := none
        state := ExpState.EXP_IDLE
        current_step_index := 0
        current_step_name := none
        loop_iteration := 0
        loop_total := 0
        error_message := none }, [])
  else if st.state = ExpState.EXP_IDLE then (st, [])
  else if st.state = ExpState.EXP_RUNNING ∨ st.state = ExpState.EXP_PAUSED then
    ({ st with stop_requested := true, state := ExpState.EXP_ABORTING },
     [StopEffect.notifyPauseCV, StopEffect.emitExperimentStopped])
  else (st, [])

/-- The tail of `execution_thread_func`: once the step walk returns, the
thread reads the stop flag and finishes in ABORTED when a stop was
requested, in COMPLETED otherwise. -/
def executionThreadFinish (st : OrchState) : OrchState :=
  if st.stop_requested then { st with state := ExpState.EXP_ABORTED }
  else { st with state := ExpState.EXP_COMPLETED }

/-- C8: stop_experiment() has exactly three behaviours keyed on the
lifecycle state: in LOADED, COMPLETED, ERROR or ABORTED it drops the
loaded program, resets the execution counters and transitions to IDLE; in
IDLE it is a no-op; in RUNNING or PAUSED it sets the stop flag, wakes the
pause condition variable and transitions to ABORTING, after which the
executor thread finishes and sets the state to ABORTED. -/
theorem stop_experiment_three_behaviours :
    ∀ st : OrchState,
      ((st.state = ExpState.EXP_LOADED ∨ st.state = ExpState.EXP_COMPLETED ∨
        st.state = ExpState.EXP_ERROR ∨ st.state = ExpState.EXP_ABORTED) →
        (stopExperiment st).1.loaded_program = none ∧
        (stopExperiment st).1.state = ExpState.EXP_IDLE ∧
        (stopExperiment st).1.current_step_index = 0 ∧
        (stopExperiment st).1.current_step_name = none ∧
        (stopExperiment st).1.loop_iteration = 0 ∧
        (stopExperiment st).1.loop_total = 0 ∧
        (stopExperiment st).2 = []) ∧
      (st.state = ExpState.EXP_IDLE → stopExperiment st = (st, [])) ∧
      ((st.state = ExpState.EXP_RUNNING ∨ st.state = ExpState.EXP_PAUSED) →
        (stopExperiment st).1.stop_requested = true ∧
        (stopExperiment st).1.state = ExpState.EXP_ABORTING ∧
        StopEffect.notifyPauseCV ∈ (stopExperiment st).2 ∧
        StopEffect.emitExperimentStopped ∈ (stopExperiment st).2 ∧
        (executionThreadFinish (stopExperiment st).1).state = ExpState.EXP_ABORTED) := by
  intro st
  refine ⟨?_, ?_, ?_⟩
  · intro h
    simp [stopExperiment, h]
  · intro h
    rcases hs : st.state <;> simp_all [stopExperiment]
  · intro h
    have hne : ¬(st.state = ExpState.EXP_LOADED ∨ st.state = ExpState.EXP_COMPLETED ∨
        st.state = ExpState.EXP_ERROR ∨ st.state = ExpState.EXP_ABORTED) := by
      rcases h with h | h <;> simp [h]
    have hni : ¬ st.state = ExpState.EXP_IDLE := by
      rcases h with h | h <;> simp [h]
    simp [stopExperiment, hne, hni, h, executionThreadFinish]

theorem stop_experiment_three_behaviours_witness :
    (stopExperiment
      { state := ExpState.EXP_RUNNING, loaded_program := some 1,
        current_step_index := 2, current_step_name := some 5,
        loop_iteration := 0, loop_total := 0, error_message := none,
        stop_requested := false, pause_requested := false }).1.state =
      ExpState.EXP_ABORTING ∧
    (executionThreadFinish (stopExperiment
      { state := ExpState.EXP_RUNNING, loaded_program := some 1,
        current_step_index := 2, current_step_name := some 5,
        loop_iteration := 0, loop_total := 0, error_message := none,
        stop_requested := false, pause_requested := false }).1).state =
      ExpState.EXP_ABORTED :=
  have h := (stop_experiment_three_behaviours
    { state := ExpState.EXP_RUNNING, loaded_program := some 1,
      current_step_index := 2, current_step_name := some 5,
      loop_iteration := 0, loop_total := 0, error_message := none,
      stop_requested := false, pause_requested := false }).2.2 (Or.inl rfl)
  ⟨h.2.1, h.2.2.2.2⟩

/-- Experiment event types (`ExperimentEvent::EventType`). -/
inductive EventType
  | PROGRAM_LOADED
  | EXPERIMENT_STARTED
  | EXPERIMENT_PAUSED
  | EXPERIMENT_RESUMED
  | EXPERIMENT_STOPPED
  | EXPERIMENT_COMPLETED
  | EXPERIMENT_ERROR
  | STEP_STARTED
  | STEP_COMPLETED
  | LOOP_ITERATION
  | PHASE_STARTED
  | PHASE_ENDED
deriving DecidableEq, Repr

/-- An experiment event, reduced to its type and a message identifier. -/
structure ExperimentEvent where
  etype : EventType
  message : ℕ
deriving DecidableEq, Repr

/-- Model of `ExperimentServiceImpl::emit_event`: when the current subscriber count
is zero the event is discarded; otherwise it is appended to the event
queue (and the queue condition variable is notified). -/
def emitEvent (subscriberCount : ℕ) (queue : List ExperimentEvent)
    (ev : ExperimentEvent) : List ExperimentEvent :=
  if subscriberCount = 0 then queue else queue ++ [ev]

/-- The PROGRAM_LOADED emission performed at the end of a successful
`LoadProgram`. -/
def loadProgramEmit (subscriberCount : ℕ) (queue : List ExperimentEvent)
    (msg : ℕ) : List ExperimentEvent :=
  emitEvent subscriberCount queue { etype := EventType.PROGRAM_LOADED, message := msg }

/-- C10: with zero subscribers emit_event leaves the event queue
unchanged — the event is silently discarded instead of being enqueued —
so a PROGRAM_LOADED event emitted by load_program before the first
subscriber connects never enters the queue, and a subscriber connecting
later (which only drains the queue) never receives it; with at least one
subscriber the event is appended. -/
theorem emit_event_no_subscriber_drops :
    ∀ (q : List ExperimentEvent) (ev : ExperimentEvent) (subs msg : ℕ),
      (emitEvent 0 q ev = q) ∧
      (ev ∉ q → ev ∉ emitEvent 0 q ev) ∧
      (loadProgramEmit 0 q msg = q) ∧
      ((∀ e ∈ q, e.etype ≠ EventType.PROGRAM_LOADED) →
        ∀ e ∈ loadProgramEmit 0 q msg, e.etype ≠ EventType.PROGRAM_LOADED) ∧
      (subs ≠ 0 → emitEvent subs q ev = q ++ [ev]) := by
  intro q ev subs msg
  refine ⟨rfl, ?_, rfl, ?_, ?_⟩
  · intro h
    simpa [emitEvent] using h
  · intro h
    simpa [loadProgramEmit, emitEvent] using h
  · intro h
    simp [emitEvent, h]

theorem emit_event_no_subscriber_drops_witness :
    ({ etype := EventType.PROGRAM_LOADED, message := 0 } : ExperimentEvent) ∉
      emitEvent 0 [] { etype := EventType.PROGRAM_LOADED, message := 0 } :=
  (emit_event_no_subscriber_drops [] { etype := EventType.PROGRAM_LOADED, message := 0 }
    0 0).2.1 (by decide)

/-- The stability test run on each sensor packet by
`ExperimentServiceImpl::wait_for_sensor_stability`: once the reading
window holds at least 10 samples, take the window minimum and maximum,
form mean_val = (min + max) / 2, and flag stable when mean_val is
positive and (max − min) / mean_val × 100 is at most the threshold. -/
def checkStability (readings : List ℚ) (threshold : ℚ) : Bool :=
  match readings with
  | [] => false
  | x :: xs =>
    if 10 ≤ (x :: xs).length then
      if 0 < (xs.foldl min x + xs.foldl max x) / 2 then
        if (xs.foldl max x - xs.foldl min x) /
            ((xs.foldl min x + xs.foldl max x) / 2) * 100 ≤ threshold then
          true
        else false
      else false
    else false

/-- The stability test as the claim words it: the variation is
(max − min) / mean × 100 with mean the arithmetic window mean, and the
check succeeds when the window has at least 10 samples and the variation
is at most the threshold. -/
def specVariationWindowMean (readings : List ℚ) (threshold : ℚ) : Bool :=
  match readings with
  | [] => false
  | x :: xs =>
    if 10 ≤ (x :: xs).length then
      if (xs.foldl max x - xs.foldl min x) /
          ((x :: xs).sum / ((x :: xs).length : ℚ)) * 100 ≤ threshold then
        true
      else false
    else false

/-- C9 counterexample: for the ten-sample window [1,…,1,4] with threshold
150 %, the code's variation over the midrange (min+max)/2 = 2.5 is 120 %
and it reports stable, while the claim's variation over the window mean
1.3 is about 230.8 % and would not; so the code does not compute the
claimed window-mean variation. -/
theorem stability_window_mean_counterexample :
    checkStability [1, 1, 1, 1, 1, 1, 1, 1, 1, 4] 150 = true ∧
    specVariationWindowMean [1, 1, 1, 1, 1, 1, 1, 1, 1, 4] 150 = false := by
  constructor <;>
    norm_num [checkStability, specVariationWindowMean, min_def, max_def]

/-- C9 amended: the stability termination flags success, once the window
holds at least 10 samples, when the midpoint (min + max) / 2 of the window
extremes is positive and (max − min) divided by that midpoint, times 100,
is at most threshold_percent (the mean in the variation formula is the
midrange of the window extremes, not the arithmetic window mean). -/
theorem checkStability_midrange_spec :
    ∀ (readings : List ℚ) (threshold : ℚ),
      checkStability readings threshold = true ↔
        (10 ≤ readings.length ∧
          ∃ mn mx, readings.min? = some mn ∧ readings.max? = some mx ∧
            0 < (mn + mx) / 2 ∧ (mx - mn) / ((mn + mx) / 2) * 100 ≤ threshold) := by
  intro readings threshold
  cases readings with
  | nil => simp [checkStability]
  | cons x xs =>
    have hmin : (x :: xs).min? = some (xs.foldl min x) := rfl
    have hmax : (x :: xs).max? = some (xs.foldl max x) := rfl
    constructor
    · intro h
      simp only [checkStability] at h
      split_ifs at h with h1 h2 h3
      · exact ⟨h1, xs.foldl min x, xs.foldl max x, hmin, hmax, h2, h3⟩
    · rintro ⟨h1, mn, mx, hmn, hmx, hpos, hle⟩
      rw [hmin] at hmn
      rw [hmax] at hmx
      obtain rfl : xs.foldl min x = mn := Option.some_injective _ hmn
      obtain rfl : xs.foldl max x = mx := Option.some_injective _ hmx
      simp only [checkStability]
      simp [hpos, hle]
      simp only [List.length_cons] at h1
      omega

theorem checkStability_midrange_spec_witness :
    checkStability [1, 1, 1, 1, 1, 1, 1, 1, 1, 4] 150 = true :=
  (checkStability_midrange_spec [1, 1, 1, 1, 1, 1, 1, 1, 1, 4] 150).mpr
    ⟨by norm_num, 1, 4, by norm_num [List.min?, min_def],
     by norm_num [List.max?, max_def], by norm_num, by norm_num⟩
